import Mathlib

/-!
Verification of the Poetry interpreter locator and activation-command
provider of `coc-python`.

The two source files embedded here are
`src/interpreter/locators/services/poetryService.ts` and
`src/common/terminal/environmentActivationProviders/poetryActivationProvider.ts`.
Their external collaborators (file system, process execution, workspace
service, logger, interpreter helper, configuration service) are modelled as
an explicit environment record; each asynchronous method becomes a pure
function of that environment which returns its result together with a trace
of the observable effects it performed (subprocess invocations, log calls,
user-facing warning messages).
-/

namespace CocPoetry

/-- An interpreter-kind tag; `InterpreterType` from `src/interpreter/contracts`
(the contracts file is not part of the given sources; only the two members
used by this code matter, the rest stand for the other kinds). -/
inductive InterpreterType where
  | Unknown
  | Conda
  | VirtualEnv
  | PipEnv
  | Pyenv
  | Venv
  | WindowsStore
  | Poetry
deriving DecidableEq, Repr

/-- A discovered interpreter record (`PythonInterpreter` from
`src/interpreter/contracts`): path, type tag, optional metadata. -/
structure PythonInterpreter where
  path : String
  type : InterpreterType
  version : Option String
  poetryWorkspaceFolder : Option String
deriving DecidableEq, Repr

/-- The result of `processService.exec` when the promise resolves. -/
structure ExecResult where
  stdout : String
  stderr : String
deriving DecidableEq, Repr

/-- Outcome of the external `poetry env info -p` subprocess: the exec promise
either rejects with an error message, or resolves (possibly to an undefined
result, which the code guards with `if (result)`). -/
inductive ExecOutcome where
  | rejects (msg : String)
  | resolves (r : Option ExecResult)
deriving DecidableEq, Repr

/-- Observable effects performed by the service: one constructor per external
side-effecting call made by `poetryService.ts`. -/
inductive Event where
  | execCall (execName : String) (args : List String) (cwd : String)
  | logWarning (msg : String)
  | traceErrorCall (msg : String)
  | showWarningMessage (msg : String)
  | hasInterpretersResolved
deriving DecidableEq, Repr

/-- The environment of external collaborators a `PoetryService` instance
sees during one lookup: `fs.fileExists`, the subprocess outcome,
`configService.getSettings().poetryPath`, `helper.getInterpreterInformation`
(which can reject, hence `Except`), `workspace.getWorkspaceFolder` and
`workspace.rootPath`. -/
structure Env where
  fileExists : String → Bool
  execOutcome : ExecOutcome
  poetryPath : String
  interpreterInfo : String → Except String (Option PythonInterpreter)
  getWorkspaceFolder : String → Option String
  rootPath : Option String

/-- Node's `path.sep`; the embedding uses the posix separator. -/
def sep : String := "/"

/-- The whitespace characters relevant to JavaScript `String.prototype.trim`
on the ASCII output of a subprocess (the full Unicode whitespace class never
arises here). -/
def isJsSpace (c : Char) : Bool :=
  c == ' ' || c == '\t' || c == '\n' || c == '\r'

/-- JavaScript `s.trim()`. -/
def jsTrim (s : String) : String :=
  ⟨((s.data.dropWhile isJsSpace).reverse.dropWhile isJsSpace).reverse⟩

/-- Whether the second list is a prefix of the first. -/
def listStartsWith : List Char → List Char → Bool
  | _, [] => true
  | [], _ :: _ => false
  | c :: cs, d :: ds => c == d && listStartsWith cs ds

/-- Whether `needle` occurs as a contiguous run inside the list. -/
def listHasInfix (needle : List Char) : List Char → Bool
  | [] => needle.isEmpty
  | c :: t => listStartsWith (c :: t) needle || listHasInfix needle t

/-- JavaScript `haystack.indexOf(needle) !== -1`. -/
def containsSub (haystack needle : String) : Bool :=
  listHasInfix needle.data haystack.data

/-- Node's `path.join` restricted to the uses in this code: empty segments
are dropped and the rest joined with the separator (normalisation of `..`
and duplicate separators never arises on the inputs the service builds). -/
def pathJoin (xs : List String) : String :=
  String.intercalate sep (xs.filter (fun s => ¬ s = ""))

/-- Splits a character list at every occurrence of `c`. -/
def splitOnChar (c : Char) : List Char → List (List Char)
  | [] => [[]]
  | d :: t =>
      match splitOnChar c t with
      | [] => if d == c then [[], []] else [[d]]
      | h :: rest => if d == c then [] :: h :: rest else (d :: h) :: rest

/-- Node's `path.basename`: the last non-empty path segment. -/
def basename (p : String) : String :=
  match ((splitOnChar '/' p.data).filter (fun s => ¬ s.isEmpty)).getLast? with
  | some s => ⟨s⟩
  | none => ""

/-- The user-facing warning text shown when the poetry invocation fails
(quotation marks of the original message elided; no claim depends on the
exact text). -/
def poetryFailMsg (errorMessage : String) : String :=
  "Workspace contains pipfile but attempt to run poetry env info -p failed with "
    ++ errorMessage ++ ". Make sure poetry is on the PATH."

/-- `invokePoetry` (poetryService.ts lines 116-152).  The `arg` parameter is
unused in the source as well: the exec call hardcodes
`['env', 'info', '-p']`.  A rejection of `processServiceFactory.create` lands
in the same catch as a rejection of `exec` before any result handling, so
both are modelled by `ExecOutcome.rejects`.  Every error is caught inside
the function, so it always returns (never throws). -/
def invokePoetry (env : Env) (arg : String) (rootPath : String) :
    Option String × List Event :=
  let callEv := Event.execCall env.poetryPath ["env", "info", "-p"] rootPath
  match env.execOutcome with
  | ExecOutcome.rejects msg =>
      (none,
       [callEv,
        Event.logWarning "Error in invoking Poetry",
        Event.logWarning "Relevant Environment Variables",
        Event.showWarningMessage (poetryFailMsg msg)])
  | ExecOutcome.resolves none => (none, [callEv])
  | ExecOutcome.resolves (some r) =>
      let stdout := jsTrim r.stdout
      let stderr := jsTrim r.stderr
      if stderr.length > 0 ∧ stdout.length = 0 then
        -- `throw new Error(stderr)`, caught by this function's own catch.
        (none,
         [callEv,
          Event.logWarning "Error in invoking Poetry",
          Event.logWarning "Relevant Environment Variables",
          Event.showWarningMessage (poetryFailMsg stderr)])
      else
        let pythonPath := pathJoin [jsTrim r.stdout, "bin", "python"]
        (some pythonPath, [callEv, Event.logWarning pythonPath])

/-- `checkIfPoetryLockFileExists` (poetryService.ts lines 109-114). -/
def checkIfPoetryLockFileExists (env : Env) (cwd : String) : Bool :=
  env.fileExists (pathJoin [cwd, "poetry.lock"])

/-- `getInterpreterPathFromPoetry` (poetryService.ts lines 88-108).
`invokePoetry` never throws and the modelled file system is total, so the
catch at lines 97-107 (which consults `ignoreErrors`) is unreachable; the
parameter is kept for signature fidelity. -/
def getInterpreterPathFromPoetry (env : Env) (cwd : String)
    (ignoreErrors : Bool) : Option String × List Event :=
  if ¬ checkIfPoetryLockFileExists env cwd then (none, [])
  else
    let res := invokePoetry env "env info -p" cwd
    match res.1 with
    | some pythonPath =>
        (if env.fileExists pythonPath then some pythonPath else none, res.2)
    | none => (none, res.2)

/-- `getInterpreterFromPoetry` (poetryService.ts lines 59-76).  A rejection
of `helper.getInterpreterInformation` propagates to the caller, hence the
`Except` result. -/
def getInterpreterFromPoetry (env : Env) (poetryCwd : String) :
    Except String (Option PythonInterpreter) × List Event :=
  let res := getInterpreterPathFromPoetry env poetryCwd false
  match res.1 with
  | none => (Except.ok none, res.2)
  | some interpreterPath =>
      match env.interpreterInfo interpreterPath with
      | Except.error e => (Except.error e, res.2)
      | Except.ok none => (Except.ok none, res.2)
      | Except.ok (some details) =>
          (Except.ok (some { details with
              path := interpreterPath,
              type := InterpreterType.Poetry,
              poetryWorkspaceFolder := some poetryCwd }),
           res.2 ++ [Event.hasInterpretersResolved])

/-- `getPoetryWorkingDirectory` (poetryService.ts lines 78-86); a workspace
folder is modelled directly by its file-system path. -/
def getPoetryWorkingDirectory (env : Env) (resource : Option String) :
    Option String :=
  let wsFolder := match resource with
    | some r => env.getWorkspaceFolder r
    | none => none
  match wsFolder with
  | some ws => some ws
  | none => env.rootPath

/-- `getInterpretersImplementation` (poetryService.ts lines 48-57): the
`.then(item => (item ? [item] : [])).catch(() => [])` chain. -/
def getInterpretersImplementation (env : Env) (resource : Option String) :
    List PythonInterpreter × List Event :=
  match getPoetryWorkingDirectory env resource with
  | none => ([], [])
  | some poetryCwd =>
      let res := getInterpreterFromPoetry env poetryCwd
      match res.1 with
      | Except.ok (some item) => ([item], res.2)
      | Except.ok none => ([], res.2)
      | Except.error _ => ([], res.2)

/-- `isRelatedPoetryEnvironment` (poetryService.ts lines 35-42). -/
def isRelatedPoetryEnvironment (env : Env) (dir : String)
    (pythonPath : String) : Bool × List Event :=
  if ¬ containsSub pythonPath (sep ++ basename dir ++ "-") then (false, [])
  else
    let res := getInterpreterPathFromPoetry env dir true
    (res.1.isSome, res.2)

/-- The terminal shell kinds (`TerminalShellType` from
`src/common/terminal/types`, not part of the given sources; the provider
ignores which shell it is given, so the exact constructor list is
immaterial). -/
inductive TerminalShellType where
  | powershell
  | powershellCore
  | commandPrompt
  | gitbash
  | bash
  | zsh
  | ksh
  | fish
  | cshell
  | tcshell
  | wsl
  | xonsh
  | other
deriving DecidableEq, Repr

/-- The environment of `PoetryActivationCommandProvider`:
`interpreterService.getActiveInterpreter` (per resource),
`interpreterService.getInterpreterDetails` (per interpreter path), and the
configured poetry executable exposed through `poetryService.executable`. -/
structure ActivationEnv where
  getActiveInterpreter : Option String → Option PythonInterpreter
  getInterpreterDetails : String → Option PythonInterpreter
  poetryPath : String

/-- Modelled from the spec: the helper `fileToCommandArgument` from
`src/common/string` is not among the given sources; the spec only says the
executable is quoted as a command argument in the one-line activation
command, so the model wraps the path in double quotes when it contains a
space and leaves it unchanged otherwise. -/
def fileToCommandArgument (s : String) : String :=
  if s.data.any (fun c => c == ' ') then "\"" ++ s ++ "\"" else s

/-- `isShellSupported` (poetryActivationProvider.ts lines 24-26). -/
def isShellSupported (_targetShell : TerminalShellType) : Bool :=
  false

/-- `getActivationCommands` (poetryActivationProvider.ts lines 28-35). -/
def getActivationCommands (env : ActivationEnv) (resource : Option String)
    (_shell : TerminalShellType) : Option (List String) :=
  match env.getActiveInterpreter resource with
  | none => none
  | some interpreter =>
      if ¬ interpreter.type = InterpreterType.Poetry then none
      else some [fileToCommandArgument env.poetryPath ++ " shell"]

/-- `getActivationCommandsForInterpreter` (poetryActivationProvider.ts
lines 37-45). -/
def getActivationCommandsForInterpreter (env : ActivationEnv)
    (pythonPath : String) (_targetShell : TerminalShellType) :
    Option (List String) :=
  match env.getInterpreterDetails pythonPath with
  | none => none
  | some interpreter =>
      if ¬ interpreter.type = InterpreterType.Poetry then none
      else some [fileToCommandArgument env.poetryPath ++ " shell"]

/-- Recognises the subprocess-invocation events in a trace. -/
def isExecCallEvent : Event → Bool
  | Event.execCall _ _ _ => true
  | _ => false

/-- A concrete environment in which the whole lookup succeeds:
`/proj/poetry.lock` exists, `poetry env info -p` prints `/venv/proj-abc`,
and the resulting interpreter path exists on disk. -/
def envSuccess : Env :=
  { fileExists := fun s =>
      s == "/proj/poetry.lock" || s == "/venv/proj-abc/bin/python"
    execOutcome := ExecOutcome.resolves
      (some { stdout := "/venv/proj-abc\n", stderr := "" })
    poetryPath := "poetry"
    interpreterInfo := fun _ => Except.ok
      (some { path := "x", type := InterpreterType.Unknown,
              version := some "3.8.1", poetryWorkspaceFolder := none })
    getWorkspaceFolder := fun _ => none
    rootPath := some "/proj" }

/-- The record `envSuccess` leads to. -/
def poetryRecord : PythonInterpreter :=
  { path := "/venv/proj-abc/bin/python", type := InterpreterType.Poetry,
    version := some "3.8.1", poetryWorkspaceFolder := some "/proj" }

/-- A concrete environment in which the exec promise rejects. -/
def envRejects : Env :=
  { fileExists := fun s => s == "/proj/poetry.lock"
    execOutcome := ExecOutcome.rejects "spawn poetry ENOENT"
    poetryPath := "poetry"
    interpreterInfo := fun _ => Except.ok none
    getWorkspaceFolder := fun _ => none
    rootPath := some "/proj" }

/-- A concrete environment in which the exec resolves with only stderr
output. -/
def envStderrOnly : Env :=
  { fileExists := fun s => s == "/proj/poetry.lock"
    execOutcome := ExecOutcome.resolves
      (some { stdout := "  \n", stderr := "no virtualenv has been created\n" })
    poetryPath := "poetry"
    interpreterInfo := fun _ => Except.ok none
    getWorkspaceFolder := fun _ => none
    rootPath := some "/proj" }

/-- A concrete environment with no lock file, no workspace folder and no
root path. -/
def envNoLock : Env :=
  { fileExists := fun _ => false
    execOutcome := ExecOutcome.resolves
      (some { stdout := "/venv/proj-abc\n", stderr := "" })
    poetryPath := "poetry"
    interpreterInfo := fun _ => Except.ok none
    getWorkspaceFolder := fun _ => none
    rootPath := none }

/-- A concrete activation-provider environment whose active interpreter is
a Poetry one. -/
def aenvPoetry : ActivationEnv :=
  { getActiveInterpreter := fun _ => some
      { path := "/venv/proj-abc/bin/python", type := InterpreterType.Poetry,
        version := none, poetryWorkspaceFolder := some "/proj" }
    getInterpreterDetails := fun _ => some
      { path := "/venv/proj-abc/bin/python", type := InterpreterType.Poetry,
        version := none, poetryWorkspaceFolder := some "/proj" }
    poetryPath := "poetry" }

theorem invokePoetry_mem_execCall (env : Env) (arg rootPath : String) :
    Event.execCall env.poetryPath ["env", "info", "-p"] rootPath
      ∈ (invokePoetry env arg rootPath).2 := by
  obtain ⟨fe, eo, pp, ii, gw, rp⟩ := env
  cases eo with
  | rejects msg => simp [invokePoetry]
  | resolves r =>
      cases r with
      | none => simp [invokePoetry]
      | some res =>
          by_cases h : (jsTrim res.stderr).length > 0
              ∧ (jsTrim res.stdout).length = 0 <;>
            simp [invokePoetry, h]

/-- C3: when the project directory has no `poetry.lock`,
`getInterpreterPathFromPoetry` returns `undefined` and the external
executable is never invoked: the lock-file check strictly gates the
subprocess call. -/
theorem no_lockfile_no_subprocess (env : Env) (cwd : String)
    (ignoreErrors : Bool)
    (h : env.fileExists (pathJoin [cwd, "poetry.lock"]) = false) :
    (getInterpreterPathFromPoetry env cwd ignoreErrors).1 = none
      ∧ ∀ e a c, Event.execCall e a c
          ∉ (getInterpreterPathFromPoetry env cwd ignoreErrors).2 := by
  simp [getInterpreterPathFromPoetry, checkIfPoetryLockFileExists, h]

/-- Witness for C3 at the concrete environment `envNoLock`. -/
theorem no_lockfile_no_subprocess_witness :
    (getInterpreterPathFromPoetry envNoLock "/proj" false).1 = none :=
  (no_lockfile_no_subprocess envNoLock "/proj" false rfl).1

/-- C7: within a single call of `getInterpreterPathFromPoetry` the external
executable is invoked at most once — there is no retry on failure. -/
theorem subprocess_invoked_at_most_once (env : Env) (cwd : String)
    (ignoreErrors : Bool) :
    ((getInterpreterPathFromPoetry env cwd ignoreErrors).2.filter
        isExecCallEvent).length ≤ 1 := by
  obtain ⟨fe, eo, pp, ii, gw, rp⟩ := env
  by_cases hlock : checkIfPoetryLockFileExists ⟨fe, eo, pp, ii, gw, rp⟩ cwd
  · cases eo with
    | rejects msg =>
        simp [getInterpreterPathFromPoetry, hlock, invokePoetry,
          isExecCallEvent]
    | resolves r =>
        cases r with
        | none =>
            simp [getInterpreterPathFromPoetry, hlock, invokePoetry,
              isExecCallEvent]
        | some res =>
            by_cases h : (jsTrim res.stderr).length > 0
                ∧ (jsTrim res.stdout).length = 0 <;>
              simp [getInterpreterPathFromPoetry, hlock, invokePoetry, h,
                isExecCallEvent]
  · simp [getInterpreterPathFromPoetry, hlock]

/-- C6: an exec result whose trimmed stderr is non-empty while its trimmed
stdout is empty is treated as a failure: `invokePoetry` resolves to
`undefined` after surfacing a warning, rather than parsing a path out of
that result. -/
theorem stderr_only_result_is_failure (env : Env) (arg cwd : String)
    (r : ExecResult)
    (h1 : env.execOutcome = ExecOutcome.resolves (some r))
    (h2 : (jsTrim r.stderr).length > 0)
    (h3 : (jsTrim r.stdout).length = 0) :
    (invokePoetry env arg cwd).1 = none
      ∧ ∃ m, Event.showWarningMessage m ∈ (invokePoetry env arg cwd).2 := by
  obtain ⟨fe, eo, pp, ii, gw, rp⟩ := env
  simp only at h1
  subst h1
  simp [invokePoetry, h2, h3]

/-- Witness for C6 at the concrete environment `envStderrOnly`. -/
theorem stderr_only_result_is_failure_witness :
    (invokePoetry envStderrOnly "env info -p" "/proj").1 = none
      ∧ ∃ m, Event.showWarningMessage m
          ∈ (invokePoetry envStderrOnly "env info -p" "/proj").2 :=
  stderr_only_result_is_failure envStderrOnly "env info -p" "/proj"
    { stdout := "  \n", stderr := "no virtualenv has been created\n" }
    rfl (by decide) (by decide)

/-- C1: `getInterpreterPathFromPoetry` resolves to a defined path exactly
when the external poetry invocation succeeds — rendered as: this run
performed the exec call (so the invocation actually happened) and
`invokePoetry` returned a defined path — and that path exists on the file
system; in every other case it resolves to `undefined`. -/
theorem interpreterPath_defined_iff_invocation_success
    (env : Env) (cwd : String) (ignoreErrors : Bool) (p : String) :
    (getInterpreterPathFromPoetry env cwd ignoreErrors).1 = some p ↔
      (Event.execCall env.poetryPath ["env", "info", "-p"] cwd
          ∈ (getInterpreterPathFromPoetry env cwd ignoreErrors).2
        ∧ (invokePoetry env "env info -p" cwd).1 = some p
        ∧ env.fileExists p = true) := by
  by_cases hlock : checkIfPoetryLockFileExists env cwd
  · rcases hinv : (invokePoetry env "env info -p" cwd).1 with _ | q
    · simp [getInterpreterPathFromPoetry, hlock, hinv]
    · by_cases hex : env.fileExists q = true
      · simp only [getInterpreterPathFromPoetry, hlock, not_true_eq_false,
          if_false, hinv, hex, if_true]
        constructor
        · intro h
          rw [Option.some.injEq] at h
          subst h
          exact ⟨invokePoetry_mem_execCall env "env info -p" cwd, rfl, hex⟩
        · rintro ⟨-, hq, -⟩
          exact hq
      · simp only [getInterpreterPathFromPoetry, hlock, not_true_eq_false,
          if_false, hinv, hex, Bool.false_eq_true]
        constructor
        · intro h
          simp [hex] at h
        · rintro ⟨-, hq, hfe⟩
          rw [Option.some.injEq] at hq
          subst hq
          exact absurd hfe hex
  · simp [getInterpreterPathFromPoetry, hlock]

/-- Witness for C1: at `envSuccess` the invocation succeeds, the path
exists, and the lookup indeed returns it. -/
theorem interpreterPath_defined_iff_invocation_success_witness :
    (getInterpreterPathFromPoetry envSuccess "/proj" false).1 =
      some "/venv/proj-abc/bin/python" :=
  (interpreterPath_defined_iff_invocation_success envSuccess "/proj" false
      "/venv/proj-abc/bin/python").mpr
    ⟨by decide, by decide, by decide⟩

/-- C2: on every failure of the external tool invocation (the exec promise
rejects, or it yields non-empty stderr with empty stdout) the error is
caught inside the service, logged, surfaced to the user as a warning
message, and `getInterpreterPathFromPoetry` resolves to `undefined` rather
than throwing. -/
theorem invocation_failure_caught_logged_warned
    (env : Env) (cwd : String) (ignoreErrors : Bool)
    (hfail : (∃ msg, env.execOutcome = ExecOutcome.rejects msg)
      ∨ (∃ r, env.execOutcome = ExecOutcome.resolves (some r)
          ∧ (jsTrim r.stderr).length > 0 ∧ (jsTrim r.stdout).length = 0)) :
    (invokePoetry env "env info -p" cwd).1 = none
      ∧ (∃ m, Event.logWarning m ∈ (invokePoetry env "env info -p" cwd).2)
      ∧ (∃ m, Event.showWarningMessage m
          ∈ (invokePoetry env "env info -p" cwd).2)
      ∧ (getInterpreterPathFromPoetry env cwd ignoreErrors).1 = none := by
  have hnone : (invokePoetry env "env info -p" cwd).1 = none
      ∧ (∃ m, Event.logWarning m ∈ (invokePoetry env "env info -p" cwd).2)
      ∧ (∃ m, Event.showWarningMessage m
          ∈ (invokePoetry env "env info -p" cwd).2) := by
    rcases hfail with ⟨msg, hmsg⟩ | ⟨r, hr, h2, h3⟩
    · simp [invokePoetry, hmsg]
    · simp [invokePoetry, hr, h2, h3]
  refine ⟨hnone.1, hnone.2.1, hnone.2.2, ?_⟩
  by_cases hlock : checkIfPoetryLockFileExists env cwd
  · simp [getInterpreterPathFromPoetry, hlock, hnone.1]
  · simp [getInterpreterPathFromPoetry, hlock]

/-- Witness for C2 at the concrete environment `envRejects`. -/
theorem invocation_failure_caught_logged_warned_witness :
    (invokePoetry envRejects "env info -p" "/proj").1 = none
      ∧ (∃ m, Event.logWarning m
          ∈ (invokePoetry envRejects "env info -p" "/proj").2)
      ∧ (∃ m, Event.showWarningMessage m
          ∈ (invokePoetry envRejects "env info -p" "/proj").2)
      ∧ (getInterpreterPathFromPoetry envRejects "/proj" false).1 = none :=
  invocation_failure_caught_logged_warned envRejects "/proj" false
    (Or.inl ⟨"spawn poetry ENOENT", rfl⟩)

/-- C5: every interpreter record built by `getInterpreterFromPoetry`
carries the resolved interpreter path in `path`, the Poetry tag in `type`
and the project working directory in `poetryWorkspaceFolder`; no record is
built when the path resolution or the interpreter-information lookup
yields nothing. -/
theorem interpreter_record_fields (env : Env) (cwd : String) :
    (∀ it, (getInterpreterFromPoetry env cwd).1 = Except.ok (some it) →
        (getInterpreterPathFromPoetry env cwd false).1 = some it.path
          ∧ it.type = InterpreterType.Poetry
          ∧ it.poetryWorkspaceFolder = some cwd)
      ∧ ((getInterpreterPathFromPoetry env cwd false).1 = none →
          (getInterpreterFromPoetry env cwd).1 = Except.ok none)
      ∧ (∀ p, (getInterpreterPathFromPoetry env cwd false).1 = some p →
          env.interpreterInfo p = Except.ok none →
          (getInterpreterFromPoetry env cwd).1 = Except.ok none) := by
  refine ⟨?_, ?_, ?_⟩
  · intro it hit
    rcases hpath : (getInterpreterPathFromPoetry env cwd false).1 with _ | p
    · simp [getInterpreterFromPoetry, hpath] at hit
    · rcases hinfo : env.interpreterInfo p with e | (_ | details) <;>
        simp [getInterpreterFromPoetry, hpath, hinfo] at hit
      subst hit
      simp [hpath]
  · intro hpath
    simp [getInterpreterFromPoetry, hpath]
  · intro p hpath hinfo
    simp [getInterpreterFromPoetry, hpath, hinfo]

/-- Witness for C5: the record built at `envSuccess`. -/
theorem interpreter_record_fields_witness :
    (getInterpreterPathFromPoetry envSuccess "/proj" false).1 =
        some poetryRecord.path
      ∧ poetryRecord.type = InterpreterType.Poetry
      ∧ poetryRecord.poetryWorkspaceFolder = some "/proj" :=
  (interpreter_record_fields envSuccess "/proj").1 poetryRecord rfl

/-- C4: for an active interpreter (resp. interpreter details) of type
Poetry, `getActivationCommands` (resp. `getActivationCommandsForInterpreter`)
returns the one-element list holding the quoted poetry executable followed
by ` shell`; for any other interpreter type, or when no interpreter is
found, it returns `undefined`. -/
theorem activation_commands_poetry_shell
    (env : ActivationEnv) (resource : Option String) (pythonPath : String)
    (shellA shellB : TerminalShellType) :
    ((∀ i, env.getActiveInterpreter resource = some i →
          i.type = InterpreterType.Poetry →
          getActivationCommands env resource shellA =
            some [fileToCommandArgument env.poetryPath ++ " shell"])
      ∧ (∀ i, env.getActiveInterpreter resource = some i →
          ¬ i.type = InterpreterType.Poetry →
          getActivationCommands env resource shellA = none)
      ∧ (env.getActiveInterpreter resource = none →
          getActivationCommands env resource shellA = none))
    ∧ ((∀ i, env.getInterpreterDetails pythonPath = some i →
          i.type = InterpreterType.Poetry →
          getActivationCommandsForInterpreter env pythonPath shellB =
            some [fileToCommandArgument env.poetryPath ++ " shell"])
      ∧ (∀ i, env.getInterpreterDetails pythonPath = some i →
          ¬ i.type = InterpreterType.Poetry →
          getActivationCommandsForInterpreter env pythonPath shellB = none)
      ∧ (env.getInterpreterDetails pythonPath = none →
          getActivationCommandsForInterpreter env pythonPath shellB = none)) := by
  refine ⟨⟨?_, ?_, ?_⟩, ⟨?_, ?_, ?_⟩⟩
  · intro i hi ht
    simp [getActivationCommands, hi, ht]
  · intro i hi ht
    simp [getActivationCommands, hi, ht]
  · intro hi
    simp [getActivationCommands, hi]
  · intro i hi ht
    simp [getActivationCommandsForInterpreter, hi, ht]
  · intro i hi ht
    simp [getActivationCommandsForInterpreter, hi, ht]
  · intro hi
    simp [getActivationCommandsForInterpreter, hi]

/-- Witness for C4 at the concrete environment `aenvPoetry`. -/
theorem activation_commands_poetry_shell_witness :
    getActivationCommands aenvPoetry none TerminalShellType.bash =
      some [fileToCommandArgument aenvPoetry.poetryPath ++ " shell"] :=
  (activation_commands_poetry_shell aenvPoetry none "x"
      TerminalShellType.bash TerminalShellType.bash).1.1
    { path := "/venv/proj-abc/bin/python", type := InterpreterType.Poetry,
      version := none, poetryWorkspaceFolder := some "/proj" }
    rfl rfl

/-- C8: `getInterpretersImplementation` always resolves to a list of at
most one interpreter (the model is a total function, so no rejection can
escape): empty when no poetry working directory is found or detection
fails or yields nothing, and a singleton on success. -/
theorem getInterpretersImplementation_total_at_most_one
    (env : Env) (resource : Option String) :
    (getInterpretersImplementation env resource).1.length ≤ 1
      ∧ (getPoetryWorkingDirectory env resource = none →
          (getInterpretersImplementation env resource).1 = [])
      ∧ (∀ cwd, getPoetryWorkingDirectory env resource = some cwd →
          (∀ e, (getInterpreterFromPoetry env cwd).1 = Except.error e →
              (getInterpretersImplementation env resource).1 = [])
            ∧ ((getInterpreterFromPoetry env cwd).1 = Except.ok none →
              (getInterpretersImplementation env resource).1 = [])
            ∧ (∀ it, (getInterpreterFromPoetry env cwd).1 =
                  Except.ok (some it) →
              (getInterpretersImplementation env resource).1 = [it])) := by
  refine ⟨?_, ?_, ?_⟩
  · rcases hcwd : getPoetryWorkingDirectory env resource with _ | cwd
    · simp [getInterpretersImplementation, hcwd]
    · rcases hres : (getInterpreterFromPoetry env cwd).1 with e | (_ | it) <;>
        simp [getInterpretersImplementation, hcwd, hres]
  · intro hcwd
    simp [getInterpretersImplementation, hcwd]
  · intro cwd hcwd
    refine ⟨?_, ?_, ?_⟩
    · intro e hres
      simp [getInterpretersImplementation, hcwd, hres]
    · intro hres
      simp [getInterpretersImplementation, hcwd, hres]
    · intro it hres
      simp [getInterpretersImplementation, hcwd, hres]

/-- Witness for C8: with no resource, no workspace folder and no root
path, the lookup resolves to the empty list. -/
theorem getInterpretersImplementation_total_at_most_one_witness :
    (getInterpretersImplementation envNoLock none).1 = [] :=
  (getInterpretersImplementation_total_at_most_one envNoLock none).2.1 rfl

/-- C9: the provider reports no terminal shell as supported —
`isShellSupported` returns `false` for every shell type — even though its
`getActivationCommands` can return a command. -/
theorem isShellSupported_always_false :
    (∀ s, isShellSupported s = false)
      ∧ (∃ aenv resource shell cmds,
          getActivationCommands aenv resource shell = some cmds) :=
  ⟨fun _ => rfl,
   ⟨aenvPoetry, none, TerminalShellType.bash, ["poetry shell"], rfl⟩⟩

/-- C10: when `pythonPath` does not contain the substring made of the path
separator, the base name of `dir` and a hyphen, `isRelatedPoetryEnvironment`
returns `false` with no subprocess consulted (empty trace); when it returns
`true`, that substring is present and the poetry path resolution for `dir`
succeeded. -/
theorem isRelatedPoetryEnvironment_gate (env : Env) (dir pythonPath : String) :
    (containsSub pythonPath (sep ++ basename dir ++ "-") = false →
        isRelatedPoetryEnvironment env dir pythonPath = (false, []))
      ∧ ((isRelatedPoetryEnvironment env dir pythonPath).1 = true →
          containsSub pythonPath (sep ++ basename dir ++ "-") = true
            ∧ (getInterpreterPathFromPoetry env dir true).1.isSome = true) := by
  constructor
  · intro h
    simp [isRelatedPoetryEnvironment, h]
  · intro h
    by_cases hc : containsSub pythonPath (sep ++ basename dir ++ "-") = true
    · refine ⟨hc, ?_⟩
      simp [isRelatedPoetryEnvironment, hc] at h
      exact h
    · rw [Bool.not_eq_true] at hc
      simp [isRelatedPoetryEnvironment, hc] at h

/-- Witness for C10: a python path unrelated to the directory name is
rejected without any subprocess call. -/
theorem isRelatedPoetryEnvironment_gate_witness :
    isRelatedPoetryEnvironment envSuccess "/proj" "/somewhere/else/python" =
      (false, []) :=
  (isRelatedPoetryEnvironment_gate envSuccess "/proj"
      "/somewhere/else/python").1 (by decide)

end CocPoetry
